import Mathlib

/-
Verification development for the mcp-project repository.

The Python sources are shallowly embedded as pure Lean functions:
* effectful collaborators (the MCP session, the LLM HTTP client, the
  stdio transport) become explicit oracle parameters,
* a raised Python exception becomes the `Except.error` branch carrying
  the exception message,
* mutation of an object's attributes becomes explicit state passing of
  an `MCPServer` record, and the module-level global `message_history`
  of `app/chat/chat.py` becomes an explicit `AppState` threaded through
  `complete_chat`.
-/

set_option autoImplicit false

namespace MCPApp

/-- JSON values, as produced by the external `json` module and consumed by
the external `jsonschema` module.  Arguments of tool calls and tool result
payloads are values of this type. -/
inductive JValue where
  | null
  | bool (b : Bool)
  | num (n : Int)
  | str (s : String)
  | arr (xs : List JValue)
  | obj (fields : List (String × JValue))
deriving Repr

/-- The fragment of a JSON schema that the repository's tool schemas use:
the `type` keyword and the `required` list of object property names
(spec: arguments are checked against a structured schema, type and
required fields). -/
structure JSchema where
  type : Option String := none
  required : List String := []
deriving Repr, DecidableEq

/-- Whether a JSON value matches a schema `type` keyword. -/
def typeMatches (t : String) (v : JValue) : Bool :=
  match t, v with
  | "object", .obj _ => true
  | "array", .arr _ => true
  | "string", .str _ => true
  | "number", .num _ => true
  | "integer", .num _ => true
  | "boolean", .bool _ => true
  | "null", .null => true
  | _, _ => false

/-- Whether a JSON object value has a property named `k`. -/
def JValue.hasKey (v : JValue) (k : String) : Bool :=
  match v with
  | .obj fields => fields.any (fun f => f.1 == k)
  | _ => false

/-- The `required` keyword of JSON schema: every listed property must be
present when the instance is an object (non-objects are ignored by the
keyword, as in the external `jsonschema` library). -/
def checkRequired (v : JValue) (req : List String) : Except String Unit :=
  match v with
  | .obj _ =>
    match req.find? (fun k => !(v.hasKey k)) with
    | some k => .error (k ++ " is a required property")
    | none => .ok ()
  | _ => .ok ()

/-- Model of the external `jsonschema.validate(instance, schema)` call on
the schema fragment above: check the `type` keyword, then the `required`
keyword; the first violation is reported as an error. -/
def jsonschemaValidate (v : JValue) (schema : JSchema) : Except String Unit :=
  match schema.type with
  | some t =>
    if typeMatches t v then checkRequired v schema.required
    else .error (t ++ " type was expected")
  | none => checkRequired v schema.required

/-- `app.mcp.server.Tool`: name, description and input schema of one tool. -/
structure Tool where
  name : String
  description : String
  input_schema : JSchema
deriving Repr, DecidableEq

/-- `Tool.validate_tool_call`: validates `arguments` against the input
schema via `jsonschema.validate`; a violation raises. -/
def Tool.validate_tool_call (t : Tool) (arguments : JValue) : Except String Unit :=
  jsonschemaValidate arguments t.input_schema

/-- The value returned by `session.call_tool`: an MCP result object whose
`content` attribute is a list of text items (each item's `.text`). -/
structure CallToolResult where
  content : List String
deriving Repr, DecidableEq

/-- A Python value as returned by `MCPServer.execute_tool`: `pyNone` is the
implicit `None` when the retry loop body never runs, `json v` a payload that
`json.loads` parsed, `str s` a payload that did not parse as JSON, and
`raw r` the unnormalized result object returned when it has no content. -/
inductive PyObj where
  | pyNone
  | str (s : String)
  | json (v : JValue)
  | raw (r : CallToolResult)
deriving Repr

/-- The numeric value of a decimal digit character, via its code point
(48 is the code point of the zero digit). -/
def digitVal (c : Char) : Option Nat :=
  let n := c.toNat
  if 48 ≤ n ∧ n ≤ 57 then some (n - 48) else none

/-- Parse a nonempty, all-digit character list as a decimal number. -/
def parseDigitsAux : List Char → Nat → Option Nat
  | [], acc => some acc
  | c :: cs, acc =>
    match digitVal c with
    | some d => parseDigitsAux cs (acc * 10 + d)
    | none => none

/-- Parse an optionally signed decimal integer literal. -/
def parseIntLite (s : String) : Option Int :=
  match s.data with
  | [] => none
  | '-' :: [] => none
  | '-' :: c :: cs => (parseDigitsAux (c :: cs) 0).map (fun n => -(n : Int))
  | cs => (parseDigitsAux cs 0).map (fun n => (n : Int))

/-- Model of `json.loads` on the payload fragment the tools of this
repository produce: integer, boolean and null literals parse as JSON;
anything else (such as "22C" or "success") raises `JSONDecodeError`,
reported here as `none`. -/
def parseJsonLite (s : String) : Option JValue :=
  if s = "null" then some .null
  else if s = "true" then some (.bool true)
  else if s = "false" then some (.bool false)
  else
    match parseIntLite s with
    | some n => some (.num n)
    | none => none

/-- The result normalization inside `MCPServer.execute_tool`: when the MCP
result has nonempty content, take the first item's text and try to parse it
as JSON, falling back to the plain text; otherwise return the raw result. -/
def normalizeResult (r : CallToolResult) : PyObj :=
  match r.content with
  | c :: _ =>
    match parseJsonLite c with
    | some v => .json v
    | none => .str c
  | [] => .raw r

/-- Per-server launch configuration (`config["command"]`, `config["args"]`,
`config["env"]`), as consumed by `MCPServer.initialize`. -/
structure ServerConfig where
  command : String
  args : List String := []
  env : List (String × String) := []
deriving Repr, DecidableEq

/-- The mutable attributes of an `app.mcp.server.MCPServer` object.
`session` and `stdio_context` record whether the attribute is not `None`;
`exit_stack` counts the async contexts currently entered on the server's
`AsyncExitStack`. -/
structure MCPServer where
  name : String
  config : ServerConfig
  stdio_context : Bool := false
  session : Bool := false
  tools : List Tool := []
  exit_stack : Nat := 0
deriving Repr, DecidableEq

/-- The retry loop of `MCPServer.execute_tool` (`attempt = 0; while attempt <
retries: ...`).  `provider i` is the outcome of the `(i+1)`-th
`session.call_tool` invocation; the second component of the result counts
how many provider calls were made.  On success the normalized result is
returned; on failure `attempt` is incremented and, once `attempt < retries`
fails, the last error is re-raised; when the loop body never runs the
Python function falls through and returns `None`. -/
def executeLoop (provider : Nat → Except String CallToolResult)
    (retries attempt : Int) (calls : Nat) :
    Except String PyObj × Nat :=
  if _h : attempt < retries then
    match provider calls with
    | .ok r => (.ok (normalizeResult r), calls + 1)
    | .error e =>
      if attempt + 1 < retries then
        executeLoop provider retries (attempt + 1) (calls + 1)
      else
        (.error e, calls + 1)
  else
    (.ok .pyNone, calls)
termination_by (retries - attempt).toNat
decreasing_by
  omega

/-- `MCPServer.execute_tool`: requires an initialized session, looks the
tool up in the local catalog, validates the arguments against the tool's
schema, then runs the retry loop.  The second component of the result is
the number of `session.call_tool` invocations performed. -/
def MCPServer.execute_tool (s : MCPServer)
    (provider : Nat → Except String CallToolResult)
    (tool_name : String) (arguments : JValue) (retries : Int) :
    Except String PyObj × Nat :=
  if s.session = false then
    (.error ("Server " ++ s.name ++ " not initialized"), 0)
  else
    match s.tools.find? (fun t => t.name == tool_name) with
    | none =>
      (.error ("Tool " ++ tool_name ++ " not found in server " ++ s.name ++ " tools."), 0)
    | some t =>
      match t.validate_tool_call arguments with
      | .error e => (.error e, 0)
      | .ok _ => executeLoop provider retries 0 0

/-- A tool entry of the `list_tools` response: the `.name`,
`.description` and `.inputSchema` attributes of one advertised tool. -/
structure RawTool where
  name : String
  description : String
  inputSchema : JSchema
deriving Repr, DecidableEq

/-- Oracle describing how the effectful steps of one server's
initialization would go: the outcome of `shutil.which("npx")`, of entering
the `stdio_client` context, of entering the `ClientSession` context, of
`session.initialize()`, and of `session.list_tools()` (a response iterated
as (field name, tool list) pairs).  `aclose_fails` tells whether closing a
nonempty `AsyncExitStack` would itself raise. -/
structure ProviderEnv where
  which_npx : Option String := some "/usr/local/bin/npx"
  stdio_transport : Except String Unit := .ok ()
  session_enter : Except String Unit := .ok ()
  session_init : Except String Unit := .ok ()
  list_tools : Except String (List (String × List RawTool)) := .ok []
  aclose_fails : Bool := false

/-- The executable resolution at the top of `MCPServer.initialize`:
`shutil.which("npx")` when the configured command is "npx", otherwise the
configured command itself. -/
def resolveCommand (env : ProviderEnv) (cfg : ServerConfig) : Option String :=
  if cfg.command == "npx" then env.which_npx else some cfg.command

/-- The try-block of `MCPServer.cleanup`: `aclose` the exit stack (all
entered contexts are unwound even when one of them raises on exit, so the
stack count drops to 0 either way), then clear `session` and
`stdio_context` — the clearing is skipped when `aclose` raised, because the
exception jumps to the handler.  The error branch carries the mutated state
and the number of contexts released. -/
def cleanupBody (aclose_fails : Bool) (s : MCPServer) :
    Except (String × MCPServer × Nat) (MCPServer × Nat) :=
  let released := s.exit_stack
  let s1 : MCPServer := { s with exit_stack := 0 }
  if aclose_fails && released != 0 then
    .error ("Error during cleanup of exit stack", s1, released)
  else
    .ok ({ s1 with session := false, stdio_context := false }, released)

/-- The state and release count `MCPServer.cleanup` ends with: the handler
of its try/except logs any teardown error and swallows it. -/
def cleanupRes (aclose_fails : Bool) (s : MCPServer) : MCPServer × Nat :=
  match cleanupBody aclose_fails s with
  | .ok res => res
  | .error (_, s1, released) => (s1, released)

/-- `MCPServer.cleanup`: the whole body runs under the cleanup lock inside
try/except, so teardown errors are logged and swallowed and the call never
raises.  The `Nat` in the payload is the number of contexts released. -/
def MCPServer.cleanup (aclose_fails : Bool) (s : MCPServer) :
    Except String (MCPServer × Nat) :=
  .ok (cleanupRes aclose_fails s)

/-- The try-block of `MCPServer.initialize`: enter the `stdio_client`
context and the `ClientSession` context on the exit stack, run
`session.initialize()`, and on success store the session.  The error branch
carries the message and the state at the point of failure (contexts already
entered stay on the exit stack). -/
def initTryBlock (env : ProviderEnv) (s : MCPServer) :
    Except (String × MCPServer) MCPServer :=
  match env.stdio_transport with
  | .error e => .error (e, s)
  | .ok _ =>
    let s1 : MCPServer := { s with exit_stack := s.exit_stack + 1 }
    match env.session_enter with
    | .error e => .error (e, s1)
    | .ok _ =>
      let s2 : MCPServer := { s1 with exit_stack := s1.exit_stack + 1 }
      match env.session_init with
      | .error e => .error (e, s2)
      | .ok _ => .ok { s2 with session := true }

/-- `MCPServer.__update_tools`: requires a session, fetches the tool
catalog via `session.list_tools()` and keeps the tools of every response
item whose first component is "tools"; a fetch failure is re-raised. -/
def MCPServer.update_tools (env : ProviderEnv) (s : MCPServer) :
    Except String MCPServer :=
  if s.session = false then
    .error ("Server " ++ s.name ++ " not initialized")
  else
    match env.list_tools with
    | .error e => .error e
    | .ok resp =>
      let ts := (resp.filter (fun item => item.1 == "tools")).foldr
        (fun item acc =>
          item.2.map (fun rt => Tool.mk rt.name rt.description rt.inputSchema) ++ acc)
        []
      .ok { s with tools := ts }

/-- `MCPServer.initialize`: resolve the executable (a `None` command raises
before the try-block, with no cleanup), run the try-block — whose handler
invokes `cleanup()` and re-raises — then fetch the tool catalog via
`__update_tools` outside the try-block (a catalog failure propagates with
no cleanup).  The last component counts how many times `cleanup()` was
invoked on the failure path. -/
def MCPServer.initServer (env : ProviderEnv) (s : MCPServer) :
    Except String Unit × MCPServer × Nat :=
  match resolveCommand env s.config with
  | none => (.error "The command must be a valid string and cannot be None.", s, 0)
  | some _ =>
    match initTryBlock env s with
    | .error (e, s1) => (.error e, (cleanupRes env.aclose_fails s1).1, 1)
    | .ok s1 =>
      match s1.update_tools env with
      | .error e => (.error e, s1, 0)
      | .ok s2 => (.ok (), s2, 0)

/-- One iteration of the loop in `initialize_servers`: construct the
server, run `initialize()` inside `async with server.exit_stack:` (so the
exit stack is closed when the block is left, on success and on failure
alike), and append the server only when no exception escaped; any
exception — including one raised by the closing `aclose` itself — is caught
by the `except` clause and the entry is skipped. -/
def initServerEntry (env : ProviderEnv) (name : String) (cfg : ServerConfig) :
    Option MCPServer :=
  let server : MCPServer := { name := name, config := cfg }
  match MCPServer.initServer env server with
  | (.ok _, s1, _) =>
    if env.aclose_fails && s1.exit_stack != 0 then none
    else some { s1 with exit_stack := 0 }
  | (.error _, _, _) => none

/-- `initialize_servers`: iterate the configured `mcpServers` entries (the
parsed configuration is passed in directly; loading it is the out-of-scope
startup collaborator), skip entries with a falsy name, initialize each
server inside its own try/except, and collect the servers whose
initialization succeeded.  `envs` gives the initialization oracle of each
named provider. -/
def init_servers (cfg : List (String × ServerConfig)) (envs : String → ProviderEnv) :
    List MCPServer :=
  match cfg with
  | [] => []
  | entry :: rest =>
    if entry.1 == "" then init_servers rest envs
    else
      match initServerEntry (envs entry.1) entry.1 entry.2 with
      | some s => s :: init_servers rest envs
      | none => init_servers rest envs

/-- `app.llm.schemas.ToolCall`: a tool request emitted by the model. -/
structure ToolCall where
  name : String
  arguments : JValue

/-- `app.llm.schemas.LLMResponse`: the standardized model response.  The
dataclass default for `tool_calls` is `None`; both `None` and `[]` are
falsy in the `while llm_response.tool_calls:` test, so the field is
embedded as a list whose emptiness is the loop condition. -/
structure LLMResponse where
  role : String := "assistant"
  content : String
  tool_calls : List ToolCall := []

/-- An element of the `tools` argument of `get_llm_response`, as the
function actually uses it: its `.name` attribute and its
`.execute_tool(arguments)` invocation, whose behavior belongs to the tool
object and is carried here as the function `exec`. -/
structure ChatTool where
  name : String
  exec : JValue → Except String PyObj

/-- The tool objects `complete_chat` actually supplies to
`get_llm_response` are `app.mcp.server.Tool` instances.  `Tool` defines no
`execute_tool` method (only `MCPServer.execute_tool(tool_name, arguments)`
exists in the repository), so the attribute access
`tool.execute_tool` raises `AttributeError`; the invocation therefore
always fails with that message (modelled without the quote characters of
the Python rendering). -/
def Tool.asChatTool (t : Tool) : ChatTool :=
  ⟨t.name, fun _ => .error "Tool object has no attribute execute_tool"⟩

/-- One entry of the module-level `message_history` of `app.chat.chat`:
a dict with a `role` and a `content` value (the content of a tool message
is whatever the tool invocation returned, hence a `PyObj`). -/
structure Message where
  role : String
  content : PyObj

/-- The inner `for tool in tools:` loop of `get_llm_response` for one tool
call: every tool whose name matches is invoked (there is no `break`), the
result — or `"Error: <message>"` on failure — is appended as a `tool`
message, and a name with no match only produces a log line. -/
def processOneCall (tools : List ChatTool) (tc : ToolCall)
    (history : List Message) : List Message :=
  tools.foldl
    (fun h tool =>
      if tool.name == tc.name then
        match tool.exec tc.arguments with
        | .ok result => h ++ [⟨"tool", result⟩]
        | .error e => h ++ [⟨"tool", .str ("Error: " ++ e)⟩]
      else h)
    history

/-- The `for tool_call in llm_response.tool_calls:` loop: the calls of one
round are processed sequentially, in the order the model returned them. -/
def processCalls (tools : List ChatTool) (tcs : List ToolCall)
    (history : List Message) : List Message :=
  tcs.foldl (fun h tc => processOneCall tools tc h) history

/-- The `while llm_response.tool_calls:` loop of `get_llm_response`.  The
model collaborator is embedded as the finite list of responses it would
give to the successive `llm_client.get_response` calls (an exhausted list
counts as the client raising); each round processes the current response's
tool calls, asks the client again, appends the new assistant message and
loops.  A client failure is re-raised after the history mutations made so
far. -/
def chatLoop (tools : List ChatTool) (responses : List (Except String LLMResponse))
    (resp : LLMResponse) (history : List Message) :
    Except String String × List Message :=
  if resp.tool_calls.isEmpty then
    (.ok resp.content, history)
  else
    let h1 := processCalls tools resp.tool_calls history
    match responses with
    | [] => (.error "LLM client gave no response", h1)
    | r :: rest =>
      match r with
      | .error e => (.error e, h1)
      | .ok resp1 =>
        chatLoop tools rest resp1 (h1 ++ [⟨"assistant", .str resp1.content⟩])

/-- `get_llm_response`: append the `user` message, ask the model (a client
failure is re-raised), append the `assistant` message, then run the
tool-call loop; the returned text is the content of the final assistant
response.  The global `message_history` is threaded explicitly: the
function receives its current value and returns its final value alongside
the result. -/
def get_llm_response (responses : List (Except String LLMResponse))
    (tools : List ChatTool) (user_input : String) (history : List Message) :
    Except String String × List Message :=
  let h0 := history ++ [⟨"user", .str user_input⟩]
  match responses with
  | [] => (.error "LLM client gave no response", h0)
  | r :: rest =>
    match r with
    | .error e => (.error e, h0)
    | .ok resp =>
      chatLoop tools rest resp (h0 ++ [⟨"assistant", .str resp.content⟩])

/-- The process-wide state of `app.chat.chat`: the module-level global
`message_history` that every call of `get_llm_response` reads and
mutates. -/
structure AppState where
  message_history : List Message

/-- `initialize_message_history`: reset the global history to a single
`system` message. -/
def init_message_history (system_prompt : String) : AppState :=
  ⟨[⟨"system", .str system_prompt⟩]⟩

/-- The `/chat` endpoint `complete_chat` of `app.main`: drive one
conversation turn through `get_llm_response`, which operates on the
module-level `message_history` — embedded as the `AppState` passed in and
returned. -/
def complete_chat (responses : List (Except String LLMResponse))
    (tools : List ChatTool) (user_input : String) (st : AppState) :
    Except String String × AppState :=
  let out := get_llm_response responses tools user_input st.message_history
  (out.1, ⟨out.2⟩)

/-! Lemmas about the retry loop of `execute_tool`. -/

theorem executeLoop_count_le (p : Nat → Except String CallToolResult)
    (retries : Int) (k : Nat) :
    ∀ (attempt : Int) (calls : Nat), (retries - attempt).toNat = k →
    (executeLoop p retries attempt calls).2 ≤ calls + k := by
  induction k with
  | zero =>
    intro attempt calls hk
    rw [executeLoop]
    have hnl : ¬ attempt < retries := by omega
    rw [dif_neg hnl]
    simp
  | succ k ih =>
    intro attempt calls hk
    rw [executeLoop]
    have hlt : attempt < retries := by omega
    rw [dif_pos hlt]
    cases hp : p calls with
    | ok r => simp
    | error e =>
      dsimp only
      by_cases h2 : attempt + 1 < retries
      · rw [if_pos h2]
        have := ih (attempt + 1) (calls + 1) (by omega)
        omega
      · rw [if_neg h2]
        simp

theorem executeLoop_first_ok (p : Nat → Except String CallToolResult)
    (retries : Int) (j : Nat) :
    ∀ (attempt : Int) (calls : Nat) (r : CallToolResult),
    (∀ i, i < j → ∃ e, p (calls + i) = .error e) →
    p (calls + j) = .ok r →
    (j : Int) < retries - attempt →
    executeLoop p retries attempt calls = (.ok (normalizeResult r), calls + j + 1) := by
  induction j with
  | zero =>
    intro attempt calls r _ hok hj
    rw [executeLoop]
    have hlt : attempt < retries := by omega
    rw [dif_pos hlt]
    have h0 : p calls = .ok r := by simpa using hok
    rw [h0]
  | succ j ih =>
    intro attempt calls r hprev hok hj
    rw [executeLoop]
    have hlt : attempt < retries := by omega
    rw [dif_pos hlt]
    obtain ⟨e, he⟩ := hprev 0 (by omega)
    have he0 : p calls = .error e := by simpa using he
    rw [he0]
    dsimp only
    have h2 : attempt + 1 < retries := by omega
    rw [if_pos h2]
    have hrec := ih (attempt + 1) (calls + 1) r
      (fun i hi => by
        have hadd : calls + 1 + i = calls + (i + 1) := by omega
        rw [hadd]
        exact hprev (i + 1) (by omega))
      (by
        have hadd : calls + 1 + j = calls + (j + 1) := by omega
        rw [hadd]
        exact hok)
      (by omega)
    rw [hrec]
    have hadd2 : calls + 1 + j + 1 = calls + (j + 1) + 1 := by omega
    rw [hadd2]

theorem executeLoop_allfail (p : Nat → Except String CallToolResult)
    (retries : Int) (m : Nat) :
    ∀ (attempt : Int) (calls : Nat) (f : Nat → String),
    (retries - attempt).toNat = m → 0 < m →
    (∀ i, i < m → p (calls + i) = .error (f i)) →
    executeLoop p retries attempt calls = (.error (f (m - 1)), calls + m) := by
  induction m with
  | zero =>
    intro attempt calls f _ hpos _
    omega
  | succ m ih =>
    intro attempt calls f hk _ herr
    rw [executeLoop]
    have hlt : attempt < retries := by omega
    rw [dif_pos hlt]
    have h0 : p calls = .error (f 0) := by simpa using herr 0 (by omega)
    rw [h0]
    dsimp only
    by_cases h2 : attempt + 1 < retries
    · have hm : 0 < m := by omega
      have hrec := ih (attempt + 1) (calls + 1) (fun i => f (i + 1)) (by omega) hm
        (fun i hi => by
          have hadd : calls + 1 + i = calls + (i + 1) := by omega
          rw [hadd]
          exact herr (i + 1) (by omega))
      rw [if_pos h2, hrec]
      have e1 : m - 1 + 1 = m := by omega
      have e2 : calls + 1 + m = calls + (m + 1) := by omega
      simp only [e1, e2]
      rw [Nat.add_sub_cancel]
    · rw [if_neg h2]
      have hm0 : m = 0 := by omega
      subst hm0
      simp

/-! Theorems about the claims on `execute_tool`. -/

/-- C4: for an initialized server, a known tool and validating arguments,
`execute_tool` with `retries = n` (n ≥ 1) calls the provider at most n
times; if the first success is the (j+1)-th call (j < n), its normalized
result is returned after exactly j+1 calls; if all n calls fail, the last
failure is propagated after exactly n calls. -/
theorem execute_tool_retry_contract (s : MCPServer)
    (p : Nat → Except String CallToolResult)
    (tool_name : String) (arguments : JValue) (t : Tool) (n : Int)
    (hs : s.session = true)
    (ht : s.tools.find? (fun t0 => t0.name == tool_name) = some t)
    (hv : t.validate_tool_call arguments = .ok ())
    (hn : 1 ≤ n) :
    (s.execute_tool p tool_name arguments n).2 ≤ n.toNat ∧
    (∀ (j : Nat) (r : CallToolResult), j < n.toNat →
      (∀ i, i < j → ∃ e, p i = .error e) → p j = .ok r →
      s.execute_tool p tool_name arguments n = (.ok (normalizeResult r), j + 1)) ∧
    (∀ f : Nat → String, (∀ i, i < n.toNat → p i = .error (f i)) →
      s.execute_tool p tool_name arguments n = (.error (f (n.toNat - 1)), n.toNat)) := by
  have hexec : s.execute_tool p tool_name arguments n = executeLoop p n 0 0 := by
    unfold MCPServer.execute_tool
    rw [hs]
    simp only [Bool.true_eq_false, if_false, ht, hv]
  refine ⟨?_, ?_, ?_⟩
  · rw [hexec]
    have := executeLoop_count_le p n n.toNat 0 0 (by omega)
    omega
  · intro j r hj hprev hok
    rw [hexec]
    have := executeLoop_first_ok p n j 0 0 r
      (fun i hi => by simpa using hprev i hi)
      (by simpa using hok)
      (by omega)
    simpa using this
  · intro f herr
    rw [hexec]
    have := executeLoop_allfail p n n.toNat 0 0 f (by omega) (by omega)
      (fun i hi => by simpa using herr i hi)
    simpa using this

/-- C5: arguments that fail schema validation make `execute_tool` raise the
validation error before any provider call; the provider call count stays
zero, so no retry is performed. -/
theorem execute_tool_validation_failure (s : MCPServer)
    (p : Nat → Except String CallToolResult)
    (tool_name : String) (arguments : JValue) (t : Tool) (e : String)
    (retries : Int)
    (hs : s.session = true)
    (ht : s.tools.find? (fun t0 => t0.name == tool_name) = some t)
    (hv : t.validate_tool_call arguments = .error e) :
    s.execute_tool p tool_name arguments retries = (.error e, 0) := by
  unfold MCPServer.execute_tool
  rw [hs]
  simp only [Bool.true_eq_false, if_false, ht, hv]

/-- C6: a tool name absent from the server's local catalog makes
`execute_tool` fail immediately with a tool-not-found error and zero
provider calls. -/
theorem execute_tool_unknown_tool (s : MCPServer)
    (p : Nat → Except String CallToolResult)
    (tool_name : String) (arguments : JValue) (retries : Int)
    (hs : s.session = true)
    (ht : s.tools.find? (fun t0 => t0.name == tool_name) = none) :
    s.execute_tool p tool_name arguments retries =
      (.error ("Tool " ++ tool_name ++ " not found in server " ++ s.name ++ " tools."), 0) := by
  unfold MCPServer.execute_tool
  rw [hs]
  simp only [Bool.true_eq_false, if_false, ht]

/-- C10: with `retries ≤ 0` the while loop body never runs, so
`execute_tool` makes no provider call, raises nothing, and returns the
implicit Python `None`. -/
theorem execute_tool_nonpositive_retries (s : MCPServer)
    (p : Nat → Except String CallToolResult)
    (tool_name : String) (arguments : JValue) (t : Tool) (retries : Int)
    (hs : s.session = true)
    (ht : s.tools.find? (fun t0 => t0.name == tool_name) = some t)
    (hv : t.validate_tool_call arguments = .ok ())
    (hr : retries ≤ 0) :
    s.execute_tool p tool_name arguments retries = (.ok .pyNone, 0) := by
  unfold MCPServer.execute_tool
  rw [hs]
  simp only [Bool.true_eq_false, if_false, ht, hv]
  rw [executeLoop, dif_neg (by omega)]

/-! Concrete instances used by the witnesses. -/

/-- A tool schema requiring the "city" property of an object argument. -/
def schemaW : JSchema := { type := some "object", required := ["city"] }

/-- A concrete weather tool. -/
def toolW : Tool := ⟨"get_weather", "Returns the weather of a city", schemaW⟩

/-- Arguments that satisfy `schemaW`. -/
def argsW : JValue := .obj [("city", .str "Paris")]

/-- Arguments missing the required "city" property. -/
def argsBad : JValue := .obj [("units", .str "metric")]

/-- An initialized server whose catalog holds `toolW`. -/
def serverW : MCPServer :=
  { name := "weather", config := { command := "npx", args := ["server-weather"] },
    session := true, tools := [toolW] }

/-- A provider stub that fails once and then returns "success". -/
def providerW : Nat → Except String CallToolResult :=
  fun i => if i = 0 then .error "First failure" else .ok ⟨["success"]⟩

theorem execute_tool_retry_contract_witness :
    serverW.execute_tool providerW "get_weather" argsW 2 = (.ok (.str "success"), 2) := by
  have h := execute_tool_retry_contract serverW providerW "get_weather" argsW toolW 2
    rfl rfl rfl (by norm_num)
  have h2 := h.2.1 1 ⟨["success"]⟩ (by norm_num)
    (fun i hi => by interval_cases i; exact ⟨"First failure", rfl⟩) rfl
  exact h2

theorem execute_tool_validation_failure_witness :
    serverW.execute_tool providerW "get_weather" argsBad 2 =
      (.error "city is a required property", 0) :=
  execute_tool_validation_failure serverW providerW "get_weather" argsBad toolW
    "city is a required property" 2 rfl rfl rfl

theorem execute_tool_unknown_tool_witness :
    serverW.execute_tool providerW "get_forecast" argsW 2 =
      (.error "Tool get_forecast not found in server weather tools.", 0) :=
  execute_tool_unknown_tool serverW providerW "get_forecast" argsW 2 rfl rfl

theorem execute_tool_nonpositive_retries_witness :
    serverW.execute_tool providerW "get_weather" argsW 0 = (.ok .pyNone, 0) :=
  execute_tool_nonpositive_retries serverW providerW "get_weather" argsW toolW 0
    rfl rfl rfl (by norm_num)

/-! Theorems about `cleanup`. -/

theorem cleanupRes_exit_stack (b : Bool) (s : MCPServer) :
    (cleanupRes b s).1.exit_stack = 0 := by
  unfold cleanupRes cleanupBody
  by_cases hc : (b && (s.exit_stack != 0)) = true
  · rw [if_pos hc]
  · rw [if_neg hc]

theorem cleanupRes_released_zero (b : Bool) (s : MCPServer) (h : s.exit_stack = 0) :
    (cleanupRes b s).2 = 0 := by
  unfold cleanupRes cleanupBody
  rw [h]
  simp

/-- C7: `cleanup()` never raises — teardown errors are swallowed — in every
state, and cleaning up twice does not raise either, the second call
releasing zero of the stacked contexts. -/
theorem cleanup_never_raises_twice (b b' : Bool) (s : MCPServer) :
    ∃ s1 released s2,
      MCPServer.cleanup b s = .ok (s1, released) ∧
      MCPServer.cleanup b' s1 = .ok (s2, 0) := by
  refine ⟨(cleanupRes b s).1, (cleanupRes b s).2,
    (cleanupRes b' (cleanupRes b s).1).1, rfl, ?_⟩
  have hz := cleanupRes_released_zero b' (cleanupRes b s).1 (cleanupRes_exit_stack b s)
  unfold MCPServer.cleanup
  congr 1
  exact Prod.ext rfl hz

/-! Theorems about `initialize`. -/

/-- Whether an effectful step's outcome is a success. -/
def exOk {α : Type} : Except String α → Bool
  | .ok _ => true
  | .error _ => false

/-- Whether every step of the try-block of `initialize` would succeed. -/
def tryBlockOk (env : ProviderEnv) : Bool :=
  exOk env.stdio_transport && exOk env.session_enter && exOk env.session_init

/-- An environment in which every initialization step succeeds except the
tool-catalog fetch. -/
def envCatalogFail : ProviderEnv :=
  { which_npx := some "/usr/local/bin/npx",
    stdio_transport := .ok (), session_enter := .ok (), session_init := .ok (),
    list_tools := .error "listing tools failed", aclose_fails := false }

/-- A freshly constructed server, as `initialize_servers` creates it. -/
def serverFresh : MCPServer :=
  { name := "srv", config := { command := "npx", args := ["pkg"] } }

/-- C3 counterexample: when the tool-catalog fetch (`__update_tools`) fails,
`initialize` propagates the failure but `cleanup()` is never invoked — its
invocation count is 0 — refuting the claim that every failing step triggers
cleanup before propagation. -/
theorem initServer_catalog_failure_no_cleanup :
    (serverFresh.initServer envCatalogFail).1 = .error "listing tools failed" ∧
    (serverFresh.initServer envCatalogFail).2.2 = 0 :=
  ⟨rfl, rfl⟩

/-- C3 amended: a failure of any step of `initialize` is propagated, and
`cleanup()` is invoked (exactly once) before propagation exactly when the
executable resolved and a try-block step (transport establishment, session
entry, session initialization) failed; executable-resolution failures and
tool-catalog-fetch failures propagate without any cleanup invocation. -/
theorem initServer_cleanup_scope (env : ProviderEnv) (s : MCPServer) :
    ((MCPServer.initServer env s).2.2
        = if (resolveCommand env s.config).isSome && !(tryBlockOk env) then 1 else 0) ∧
    ((MCPServer.initServer env s).1 = .ok ()
        ↔ ((resolveCommand env s.config).isSome = true ∧ tryBlockOk env = true ∧
            exOk env.list_tools = true)) := by
  obtain ⟨w, st, se, si, lt, ac⟩ := env
  cases st <;> cases se <;> cases si <;> cases lt <;>
    by_cases hc : (s.config.command == "npx") = true <;>
    cases w <;>
    simp_all [MCPServer.initServer, initTryBlock, MCPServer.update_tools, resolveCommand,
      tryBlockOk, exOk, cleanupRes, cleanupBody]

theorem initServer_ok_session (env : ProviderEnv) (s : MCPServer)
    (h : (MCPServer.initServer env s).1 = .ok ()) :
    (MCPServer.initServer env s).2.1.session = true := by
  obtain ⟨w, st, se, si, lt, ac⟩ := env
  cases st <;> cases se <;> cases si <;> cases lt <;>
    by_cases hc : (s.config.command == "npx") = true <;>
    cases w <;>
    simp_all [MCPServer.initServer, initTryBlock, MCPServer.update_tools, resolveCommand]

/-! Theorems about `initialize_servers`. -/

theorem initServerEntry_state (env : ProviderEnv) (name : String)
    (cfg : ServerConfig) (s : MCPServer)
    (h : initServerEntry env name cfg = some s) :
    s.exit_stack = 0 ∧ s.session = true := by
  have hsess := initServer_ok_session env { name := name, config := cfg }
  unfold initServerEntry at h
  dsimp only at h
  rcases hres : MCPServer.initServer env { name := name, config := cfg } with
    ⟨outcome, s1, cnt⟩
  rw [hres] at h hsess
  cases outcome with
  | error e => simp at h
  | ok u =>
    cases u
    dsimp only at h hsess
    by_cases hac : (env.aclose_fails && (s1.exit_stack != 0)) = true
    · rw [if_pos hac] at h
      simp at h
    · rw [if_neg hac] at h
      have hs : s = { s1 with exit_stack := 0 } := (Option.some.inj h).symm
      subst hs
      exact ⟨rfl, hsess rfl⟩

/-- C9: every server in the list returned by `initialize_servers` was
successfully initialized (its session is set) and yet its `AsyncExitStack`
was closed before the function returned — the `async with
server.exit_stack:` block released the acquired transport and session
contexts, leaving zero entered contexts on the returned server. -/
theorem init_servers_exit_stack_closed (cfg : List (String × ServerConfig))
    (envs : String → ProviderEnv) (s : MCPServer)
    (h : s ∈ init_servers cfg envs) :
    s.exit_stack = 0 ∧ s.session = true := by
  induction cfg with
  | nil => simp [init_servers] at h
  | cons e rest ih =>
    rw [init_servers] at h
    by_cases he : (e.1 == "") = true
    · rw [if_pos he] at h
      exact ih h
    · rw [if_neg he] at h
      cases hentry : initServerEntry (envs e.1) e.1 e.2 with
      | none =>
        rw [hentry] at h
        exact ih h
      | some s0 =>
        rw [hentry] at h
        rcases List.mem_cons.mp h with rfl | hmem
        · exact initServerEntry_state _ _ _ _ hentry
        · exact ih hmem

/-- C8: failures are confined to their own entry: every configured provider
with a nonempty name whose initialization succeeds contributes its server
to the list `initialize_servers` returns — another provider's failure does
not prevent it — and the returned list contains only servers of successful
entries; no failure is propagated out of the function. -/
theorem init_servers_partial_success (cfg : List (String × ServerConfig))
    (envs : String → ProviderEnv) :
    (∀ e ∈ cfg, (e.1 == "") = false →
      ∀ s, initServerEntry (envs e.1) e.1 e.2 = some s → s ∈ init_servers cfg envs) ∧
    (∀ s ∈ init_servers cfg envs,
      ∃ e ∈ cfg, initServerEntry (envs e.1) e.1 e.2 = some s) := by
  induction cfg with
  | nil =>
    constructor
    · intro e he
      simp at he
    · intro s hs
      simp [init_servers] at hs
  | cons a rest ih =>
    constructor
    · intro e he hne s hentry
      rw [init_servers]
      rcases List.mem_cons.mp he with rfl | hmem
      · rw [if_neg (by simp [hne]), hentry]
        exact List.mem_cons_self _ _
      · have hsmem := ih.1 e hmem hne s hentry
        by_cases ha : (a.1 == "") = true
        · rw [if_pos ha]
          exact hsmem
        · rw [if_neg ha]
          cases hae : initServerEntry (envs a.1) a.1 a.2 with
          | none => exact hsmem
          | some s0 => exact List.mem_cons_of_mem _ hsmem
    · intro s hs
      rw [init_servers] at hs
      by_cases ha : (a.1 == "") = true
      · rw [if_pos ha] at hs
        obtain ⟨e, hmem, hentry⟩ := ih.2 s hs
        exact ⟨e, List.mem_cons_of_mem _ hmem, hentry⟩
      · rw [if_neg ha] at hs
        cases hae : initServerEntry (envs a.1) a.1 a.2 with
        | none =>
          rw [hae] at hs
          obtain ⟨e, hmem, hentry⟩ := ih.2 s hs
          exact ⟨e, List.mem_cons_of_mem _ hmem, hentry⟩
        | some s0 =>
          rw [hae] at hs
          rcases List.mem_cons.mp hs with rfl | hmem
          · exact ⟨a, List.mem_cons_self _ _, hae⟩
          · obtain ⟨e, hmem2, hentry⟩ := ih.2 s hmem
            exact ⟨e, List.mem_cons_of_mem _ hmem2, hentry⟩

/-! Concrete multi-provider configuration for the witnesses. -/

/-- Launch configuration of the sample providers. -/
def cfgA : ServerConfig := { command := "npx", args := ["alpha-server"] }

/-- Three configured providers. -/
def cfgTriple : List (String × ServerConfig) :=
  [("alpha", cfgA), ("beta", cfgA), ("gamma", cfgA)]

/-- Environments in which the provider "beta" fails to spawn and the other
two initialize successfully. -/
def envsW : String → ProviderEnv :=
  fun n => if n = "beta" then { stdio_transport := .error "spawn failed" } else {}

/-- The state of the server "alpha" as `initialize_servers` returns it. -/
def serverAlpha : MCPServer :=
  { name := "alpha", config := cfgA, session := true, exit_stack := 0 }

/-- The state of the server "gamma" as `initialize_servers` returns it. -/
def serverGamma : MCPServer :=
  { name := "gamma", config := cfgA, session := true, exit_stack := 0 }

theorem init_servers_partial_success_witness :
    serverAlpha ∈ init_servers cfgTriple envsW ∧
    init_servers cfgTriple envsW = [serverAlpha, serverGamma] := by
  constructor
  · exact (init_servers_partial_success cfgTriple envsW).1 ("alpha", cfgA)
      (by simp [cfgTriple]) rfl serverAlpha rfl
  · rfl

theorem init_servers_exit_stack_closed_witness :
    serverGamma.exit_stack = 0 ∧ serverGamma.session = true :=
  init_servers_exit_stack_closed cfgTriple envsW serverGamma
    (by rw [show init_servers cfgTriple envsW = [serverAlpha, serverGamma] from rfl]
        simp)

/-! Theorems about the conversation loop. -/

/-- The weather tool call the model emits in the C1 scenario. -/
def weatherCall : ToolCall := ⟨"get_weather", argsW⟩

/-- The model's first response: it requests the weather tool. -/
def respToolCall : LLMResponse :=
  { content := "Let me check.", tool_calls := [weatherCall] }

/-- The model's second response: the final answer, no tool calls. -/
def respFinal : LLMResponse := { content := "It is 22C in Tokyo." }

/-- C1, evaluated on the code as wired: the model requests `get_weather`
(present in the tool list, arguments validating against `schemaW`) and its
second response has no tool calls.  `get_llm_response` does return the
second response's content and does append `user`, `assistant`, `tool`,
`assistant` in order — but the tool message carries
"Error: Tool object has no attribute execute_tool" instead of the
normalized result "22C", because `chat.py` invokes `tool.execute_tool`,
a method the `Tool` objects supplied by `complete_chat` do not have. -/
theorem get_llm_response_toolcall_turn :
    get_llm_response [Except.ok respToolCall, Except.ok respFinal]
      [toolW.asChatTool] "weather in Tokyo?" [] =
    (Except.ok "It is 22C in Tokyo.",
     [⟨"user", .str "weather in Tokyo?"⟩,
      ⟨"assistant", .str "Let me check."⟩,
      ⟨"tool", .str "Error: Tool object has no attribute execute_tool"⟩,
      ⟨"assistant", .str "It is 22C in Tokyo."⟩]) ∧
    toolW.validate_tool_call argsW = .ok () :=
  ⟨rfl, rfl⟩

/-- C2, evaluated on the code as wired: the conversation history is the
module-level global `message_history`, so a second conversation driven
through `get_llm_response` observes the first conversation's messages —
the two conversations do not own separate logs. -/
theorem message_history_shared_across_conversations :
    ((complete_chat [.ok { content := "Hi again." }] [] "second question"
        (complete_chat [.ok { content := "Hello there." }] [] "first question"
          (init_message_history "You are a helpful assistant.")).2).2).message_history =
    [⟨"system", .str "You are a helpful assistant."⟩,
     ⟨"user", .str "first question"⟩,
     ⟨"assistant", .str "Hello there."⟩,
     ⟨"user", .str "second question"⟩,
     ⟨"assistant", .str "Hi again."⟩] :=
  rfl

end MCPApp
